import Mathlib

/-!
Shallow embedding of the dual-backend headless rendering pipeline of
`src/utils/image_utils.py` (InkyPi).

The Python module keeps two module-level globals (`_playwright_available`,
`_playwright_browser`), creates and deletes temporary files, launches a
browser engine, opens browsing contexts, and shells out to a Chromium
binary.  We embed this as explicit state passing:

* `St` carries the module globals, counters that stand for the fresh-name
  generators (temp files, browsing contexts, launch attempts) and the set
  of files currently existing on disk (`fs`);
* `Env` fixes the outcome of every external effect (library import,
  browser launch, page navigation, screenshot capture, image decode,
  `os.remove`, `shutil.which`, subprocess exit code, ...), so each Python
  function becomes a pure function `... → St → result × St × List Ev`;
* the `List Ev` component is the trace of operations the call performed
  (backend entries, launches, navigations, context closes, subprocess
  invocations), used to state ordering and at-most-once properties.

Python exceptions never escape these functions in the source (every body
is wrapped in a broad `try/except`); accordingly every embedded function
is total and failure is the `none` branch of its `Option` result.  File
writes are modelled as always succeeding; `os.remove` may fail
(`env.removeOk`), matching the `except OSError` in the source.
-/

/-- Trace events: one per externally visible operation of a render call. -/
inductive Ev where
  /-- a browser-engine launch attempt (the `i`-th in process history) -/
  | launch (i : Nat)
  /-- entry into `_take_screenshot_html_playwright` (embedded backend, HTML mode) -/
  | embHtml
  /-- entry into `_take_screenshot_playwright` (embedded backend, target mode) -/
  | embUrl
  /-- entry into the Chromium-subprocess fallback tier of `take_screenshot` -/
  | subTier
  /-- `browser.new_context(viewport=..., device_scale_factor=...)` -/
  | newCtx (id w h dsf : Nat)
  /-- `page.set_default_timeout(t)` on context `id` -/
  | setTimeout (id t : Nat)
  /-- `page.goto(url, wait_until="networkidle")` on context `id` -/
  | goto (id : Nat) (url : String)
  /-- `page.screenshot(type="png")` on context `id` -/
  | shot (id : Nat)
  /-- `context.close()` -/
  | closeCtx (id : Nat)
  /-- `browser.close()` on the shared browser -/
  | closeBrowser
  /-- `playwright.stop()` -/
  | stopEngine
  /-- `subprocess.run(cmd, capture_output=True, check=False)` -/
  | runSub (cmd : List String)
deriving DecidableEq, Repr

/-- A decoded raster image, tagged with the backend that produced it:
`emb c` was decoded from the screenshot of browsing context `c`
(embedded backend); `sub p` was decoded from output file `p` of the
Chromium subprocess. -/
inductive Img where
  | emb (ctx : Nat)
  | sub (path : String)
deriving DecidableEq, Repr

/-- The module-level mutable state of `image_utils.py` plus the parts of
the world the module mutates.  `avail` is `_playwright_available`,
`browser` is `_playwright_browser` (a session is named by the id of the
launch that created it), `launches` counts launch attempts, `tmpCtr` and
`ctxCtr` drive the fresh-name generators, `fs` is the list of files
currently existing on disk. -/
structure St where
  avail : Option Bool := none
  browser : Option Nat := none
  launches : Nat := 0
  tmpCtr : Nat := 0
  ctxCtr : Nat := 0
  fs : List String := []
deriving DecidableEq, Repr

/-- Outcomes of all external effects, fixed up front.  Indexed functions
(`launchRes`, `gotoOk`, ...) give the outcome of each attempt / of each
browsing context, so repeated attempts may differ. -/
structure Env where
  /-- does `from playwright.sync_api import sync_playwright` succeed -/
  pwImport : Bool
  /-- outcome of the `i`-th browser launch attempt: session id, or failure -/
  launchRes : Nat → Option Nat
  /-- fresh name handed out by `tempfile.NamedTemporaryFile` for counter `i` -/
  tmpName : Nat → String
  /-- does `new_context` / `new_page` succeed for context id `c` -/
  newCtxOk : Nat → Bool
  /-- does `page.goto` succeed on context `c` -/
  gotoOk : Nat → Bool
  /-- does `page.screenshot` succeed on context `c` -/
  shotOk : Nat → Bool
  /-- does `Image.open` of the captured bytes of context `c` succeed -/
  decodeOk : Nat → Bool
  /-- does `os.remove p` succeed -/
  removeOk : String → Bool
  /-- `shutil.which` -/
  which : String → Option String
  /-- is the host macOS (`os.uname().sysname == "Darwin"`) -/
  isDarwin : Bool
  /-- `os.access(p, os.X_OK)` -/
  isExecOk : String → Bool
  /-- `os.path.isfile p` -/
  isFile : String → Bool
  /-- `os.path.abspath p` -/
  abspath : String → String
  /-- return code of the Chromium subprocess -/
  retcode : Nat
  /-- does `Image.open` of the subprocess output file succeed -/
  decodeSubOk : Bool
  /-- does `browser.close()` succeed during cleanup -/
  closeOk : Bool
  /-- does `playwright.stop()` succeed during cleanup -/
  stopOk : Bool

/-- `_check_playwright_available` (image_utils.py:17-28): probe the
library once and cache the result in the module global. -/
def _check_playwright_available (env : Env) (s : St) : Bool × St × List Ev :=
  match s.avail with
  | some b => (b, s, [])
  | none => (env.pwImport, { s with avail := some env.pwImport }, [])

/-- `_get_playwright_browser` (image_utils.py:30-46): lazily launch the
singleton browser session; on failure log, leave the global unset and
return `none`. -/
def _get_playwright_browser (env : Env) (s : St) : Option Nat × St × List Ev :=
  match s.browser with
  | some b => (some b, s, [])
  | none =>
    if env.pwImport then
      match env.launchRes s.launches with
      | some b =>
        (some b, { s with browser := some b, launches := s.launches + 1 },
          [Ev.launch s.launches])
      | none =>
        (none, { s with launches := s.launches + 1 }, [Ev.launch s.launches])
    else
      (none, s, [])

/-- `_cleanup_playwright` (image_utils.py:48-58): close the browser, stop
the engine and clear the global; any exception is caught and logged, in
which case the global is left as it was (the assignment to `None` sits
after the two calls inside the `try`). -/
def _cleanup_playwright (env : Env) (s : St) : St × List Ev :=
  match s.browser with
  | none => (s, [])
  | some _ =>
    if env.closeOk then
      if env.stopOk then
        ({ s with browser := none }, [Ev.closeBrowser, Ev.stopEngine])
      else (s, [Ev.closeBrowser])
    else (s, [])

/-- `page.set_default_timeout` is called only under Python truthiness of
`timeout_ms` (`if timeout_ms:`), so `some 0` is not forwarded. -/
def timeoutEv (c : Nat) : Option Nat → List Ev
  | some t => if t ≠ 0 then [Ev.setTimeout c t] else []
  | none => []

/-- The `finally` block of `_take_screenshot_html_playwright`
(image_utils.py:180-185): remove the temp HTML file if it exists,
swallowing `OSError`. -/
def removeIfExists (env : Env) (p : String) (s : St) : St :=
  if p ∈ s.fs then
    if env.removeOk p then { s with fs := s.fs.erase p } else s
  else s

/-- `_take_screenshot_html_playwright` (image_utils.py:138-187): write
the HTML to a temp file, navigate a fresh context to it via `file://`,
capture, decode, close the context; the temp file is removed in a
`finally`.  A failing `context.close()` after the image was assigned
still returns the image (the broad `except` catches it). -/
def _take_screenshot_html_playwright (env : Env) (html : String) (w h : Nat)
    (timeoutMs : Option Nat) (s : St) : Option Img × St × List Ev :=
  let (b, s1, e1) := _get_playwright_browser env s
  match b with
  | none => (none, s1, Ev.embHtml :: e1)
  | some _ =>
    let p := env.tmpName s1.tmpCtr
    let s2 : St := { s1 with tmpCtr := s1.tmpCtr + 1, fs := p :: s1.fs }
    let fileUrl := "file://" ++ env.abspath p
    let c := s2.ctxCtr
    let body : Option Img × St × List Ev :=
      if env.newCtxOk c then
        let s3 : St := { s2 with ctxCtr := c + 1 }
        let e : List Ev := Ev.newCtx c w h 1 :: timeoutEv c timeoutMs ++ [Ev.goto c fileUrl]
        if env.gotoOk c then
          let e := e ++ [Ev.shot c]
          if env.shotOk c then
            if env.decodeOk c then (some (Img.emb c), s3, e ++ [Ev.closeCtx c])
            else (none, s3, e)
          else (none, s3, e)
        else (none, s3, e)
      else (none, s2, [])
    let (img, s4, e2) := body
    (img, removeIfExists env p s4, Ev.embHtml :: e1 ++ e2)

/-- `_take_screenshot_playwright` (image_utils.py:189-224): navigate a
fresh context to the target (an existing local file is rewritten to a
`file://` URL, anything else is passed through), capture, decode, close
the context.  No temp file is involved. -/
def _take_screenshot_playwright (env : Env) (target : String) (w h : Nat)
    (timeoutMs : Option Nat) (s : St) : Option Img × St × List Ev :=
  let (b, s1, e1) := _get_playwright_browser env s
  match b with
  | none => (none, s1, Ev.embUrl :: e1)
  | some _ =>
    let c := s1.ctxCtr
    if env.newCtxOk c then
      let s2 : St := { s1 with ctxCtr := c + 1 }
      let url := if env.isFile target then "file://" ++ env.abspath target else target
      let e : List Ev := Ev.newCtx c w h 1 :: timeoutEv c timeoutMs ++ [Ev.goto c url]
      if env.gotoOk c then
        let e := e ++ [Ev.shot c]
        if env.shotOk c then
          if env.decodeOk c then (some (Img.emb c), s2, Ev.embUrl :: e1 ++ (e ++ [Ev.closeCtx c]))
          else (none, s2, Ev.embUrl :: e1 ++ e)
        else (none, s2, Ev.embUrl :: e1 ++ e)
      else (none, s2, Ev.embUrl :: e1 ++ e)
    else (none, s1, Ev.embUrl :: e1)

/-- Candidate executable names checked against PATH
(image_utils.py:255). -/
def path_candidates : List String :=
  ["chromium-headless-shell", "chromium", "chrome", "google-chrome"]

/-- macOS application-bundle locations checked when PATH yields nothing
(image_utils.py:264-267). -/
def app_paths : List String :=
  ["/Applications/Google Chrome.app/Contents/MacOS/Google Chrome",
   "/Applications/Chromium.app/Contents/MacOS/Chromium"]

/-- `_find_chromium_binary` (image_utils.py:252-273). -/
def _find_chromium_binary (env : Env) : Option String :=
  match path_candidates.findSome? env.which with
  | some p => some p
  | none =>
    if env.isDarwin then
      app_paths.find? (fun p => env.isFile p && env.isExecOk p)
    else none

/-- The exact argument vector built at image_utils.py:297-323. -/
def chromiumCommand (browser target imgPath : String) (w h : Nat)
    (timeoutMs : Option Nat) : List String :=
  [browser, target, "--headless",
   "--screenshot=" ++ imgPath,
   "--window-size=" ++ toString w ++ "," ++ toString h,
   "--disable-dev-shm-usage", "--disable-gpu", "--use-gl=swiftshader",
   "--hide-scrollbars", "--in-process-gpu", "--js-flags=--jitless",
   "--disable-zero-copy", "--disable-gpu-memory-buffer-compositor-resources",
   "--disable-extensions", "--disable-plugins", "--mute-audio",
   "--renderer-process-limit=1", "--no-zygote", "--no-sandbox",
   "--disable-lcd-text", "--disable-font-subpixel-positioning"] ++
  (match timeoutMs with
   | some t => if t ≠ 0 then ["--timeout=" ++ toString t] else []
   | none => [])

/-- The Chromium-subprocess fallback tier of `take_screenshot`
(image_utils.py:286-341): locate a binary (absence: log and return
`none` without running anything), reserve a temp output file, run the
subprocess; non-zero exit or missing output returns `none` (the reserved
file is not removed on this path); on success decode the file and remove
it (a failing remove is caught by the outer `except` after `image` was
assigned). -/
def take_screenshot_fallback (env : Env) (target : String) (w h : Nat)
    (timeoutMs : Option Nat) (s : St) : Option Img × St × List Ev :=
  match _find_chromium_binary env with
  | none => (none, s, [Ev.subTier])
  | some browser =>
    let p := env.tmpName s.tmpCtr
    let s1 : St := { s with tmpCtr := s.tmpCtr + 1, fs := p :: s.fs }
    let cmd := chromiumCommand browser target p w h timeoutMs
    if env.retcode ≠ 0 ∨ p ∉ s1.fs then
      (none, s1, [Ev.subTier, Ev.runSub cmd])
    else if env.decodeSubOk then
      let s2 : St := if env.removeOk p then { s1 with fs := s1.fs.erase p } else s1
      (some (Img.sub p), s2, [Ev.subTier, Ev.runSub cmd])
    else
      (none, s1, [Ev.subTier, Ev.runSub cmd])

/-- `take_screenshot` (image_utils.py:276-341): if the probe reports the
engine available, try the embedded backend; a non-`none` result is
returned immediately; otherwise fall back to the subprocess tier. -/
def take_screenshot (env : Env) (target : String) (w h : Nat)
    (timeoutMs : Option Nat) (s : St) : Option Img × St × List Ev :=
  let (avail, s1, e1) := _check_playwright_available env s
  if avail then
    let (img, s2, e2) := _take_screenshot_playwright env target w h timeoutMs s1
    match img with
    | some i => (some i, s2, e1 ++ e2)
    | none =>
      let (r, s3, e3) := take_screenshot_fallback env target w h timeoutMs s2
      (r, s3, e1 ++ e2 ++ e3)
  else
    let (r, s2, e2) := take_screenshot_fallback env target w h timeoutMs s1
    (r, s2, e1 ++ e2)

/-- The fallback branch of `take_screenshot_html` (image_utils.py:236-245):
stage the HTML into a temp file, delegate to `take_screenshot` on that
path, then remove the file (an `OSError` from the remove is caught by
the outer `except` after `image` was assigned, so the image is still
returned). -/
def take_screenshot_html_fallback (env : Env) (html : String) (w h : Nat)
    (timeoutMs : Option Nat) (s : St) : Option Img × St × List Ev :=
  let p := env.tmpName s.tmpCtr
  let s1 : St := { s with tmpCtr := s.tmpCtr + 1, fs := p :: s.fs }
  let (img, s2, e2) := take_screenshot env p w h timeoutMs s1
  let s3 : St := if env.removeOk p then { s2 with fs := s2.fs.erase p } else s2
  (img, s3, e2)

/-- `take_screenshot_html` (image_utils.py:226-250): if the probe reports
the engine available, try the embedded HTML backend; a non-`none` result
is returned immediately; otherwise stage the HTML to a file and delegate
to `take_screenshot`. -/
def take_screenshot_html (env : Env) (html : String) (w h : Nat)
    (timeoutMs : Option Nat) (s : St) : Option Img × St × List Ev :=
  let (avail, s1, e1) := _check_playwright_available env s
  if avail then
    let (img, s2, e2) := _take_screenshot_html_playwright env html w h timeoutMs s1
    match img with
    | some i => (some i, s2, e1 ++ e2)
    | none =>
      let (r, s3, e3) := take_screenshot_html_fallback env html w h timeoutMs s2
      (r, s3, e1 ++ e2 ++ e3)
  else
    let (r, s2, e2) := take_screenshot_html_fallback env html w h timeoutMs s1
    (r, s2, e1 ++ e2)

/-- Is this trace event an attempt of the embedded (Playwright) backend? -/
def isEmbAttempt : Ev → Bool
  | Ev.embHtml => true
  | Ev.embUrl => true
  | _ => false

/-- Number of embedded-backend attempts recorded in a trace. -/
def embAttempts (t : List Ev) : Nat := t.countP (fun e => isEmbAttempt e)

/-- Number of subprocess-tier attempts recorded in a trace. -/
def subAttempts (t : List Ev) : Nat := t.countP (fun e => e == Ev.subTier)

/-- `true` iff a subprocess-tier attempt occurs strictly before any
embedded-backend attempt in the trace. -/
def subFirst : List Ev → Bool
  | [] => false
  | e :: t =>
    if e == Ev.subTier then true
    else if isEmbAttempt e then false
    else subFirst t

/-- A fully healthy environment: library importable, launches succeed
(session id 7), navigation/capture/decode succeed, removals succeed, no
Chromium binary on PATH, subprocess (if ever reached) succeeds. -/
def envOk : Env where
  pwImport := true
  launchRes := fun _ => some 7
  tmpName := fun i => "tmp" ++ toString i
  newCtxOk := fun _ => true
  gotoOk := fun _ => true
  shotOk := fun _ => true
  decodeOk := fun _ => true
  removeOk := fun _ => true
  which := fun _ => none
  isDarwin := false
  isExecOk := fun _ => false
  isFile := fun _ => false
  abspath := fun p => p
  retcode := 0
  decodeSubOk := true
  closeOk := true
  stopOk := true

/-- The initial module state: nothing probed, no browser, empty disk. -/
def st0 : St := {}

/-- C4: calling `_get_playwright_browser` twice without an intervening
release returns the same session; the session is launched lazily on the
first successful call and a second launch is never attempted while a
session is live (a call with a live session performs no launch at all). -/
theorem C4_acquire_singleton (env env2 : Env) (s : St) (b : Nat) :
    (s.browser = some b → _get_playwright_browser env s = (some b, s, [])) ∧
    ((_get_playwright_browser env s).1 = some b →
      _get_playwright_browser env2 (_get_playwright_browser env s).2.1 =
        (some b, (_get_playwright_browser env s).2.1, [])) ∧
    (s.browser = none → (_get_playwright_browser env s).1 = some b →
      (_get_playwright_browser env s).2.2 = [Ev.launch s.launches]) := by
  cases hb : s.browser <;> cases hp : env.pwImport <;>
    cases hl : env.launchRes s.launches <;>
    simp_all [_get_playwright_browser]

/-- Witness for C4 at a live session: acquiring with session 7 live
returns session 7, the same state, and performs no launch. -/
theorem C4_acquire_singleton_witness :
    _get_playwright_browser envOk { browser := some 7 } =
      (some 7, { browser := some 7 }, []) :=
  (C4_acquire_singleton envOk envOk { browser := some 7 } 7).1 rfl

/-- C8 counterexample: with `browser.close()` raising, `_cleanup_playwright`
does not clear the singleton (the assignment to `None` sits after the
failing call inside the `try`), and a subsequent acquire returns the
stale session 5 without any relaunch — contradicting the claim that
release always clears the singleton so that acquire relaunches afresh. -/
theorem C8_counterexample :
    (_cleanup_playwright { envOk with closeOk := false }
        { browser := some 5 }).1.browser = some 5 ∧
    (_get_playwright_browser envOk (_cleanup_playwright { envOk with closeOk := false }
        { browser := some 5 }).1).1 = some 5 ∧
    (_get_playwright_browser envOk (_cleanup_playwright { envOk with closeOk := false }
        { browser := some 5 }).1).2.2 = [] :=
  ⟨rfl, rfl, rfl⟩

/-- C8 (amended): when `browser.close()` and `playwright.stop()` both
succeed, release closes the browser, stops the engine and clears the
singleton so a subsequent acquire relaunches; release is a no-op when no
session exists, so a second release in a row after a successful one does
not raise (the embedded function is total: every exception in the source
is caught and logged); when close or stop raises, the singleton is left
set.  The unconditional "clears the singleton" of the original claim
holds only when close and stop succeed. -/
theorem C8_release_amended (env : Env) (s : St) (b : Nat) :
    (env.closeOk = true → env.stopOk = true →
      (_cleanup_playwright env s).1.browser = none) ∧
    (s.browser = none → _cleanup_playwright env s = (s, [])) ∧
    (s.browser = some b → env.closeOk = true → env.stopOk = true →
      (_cleanup_playwright env s).2 = [Ev.closeBrowser, Ev.stopEngine]) ∧
    (env.closeOk = true → env.stopOk = true →
      _cleanup_playwright env (_cleanup_playwright env s).1 =
        ((_cleanup_playwright env s).1, [])) := by
  cases hb : s.browser <;> cases hc : env.closeOk <;> cases hs : env.stopOk <;>
    simp_all [_cleanup_playwright]

/-- Witness for C8 (amended): a healthy release of session 5 clears the
singleton. -/
theorem C8_release_amended_witness :
    (_cleanup_playwright envOk { browser := some 5 }).1.browser = none :=
  (C8_release_amended envOk { browser := some 5 } 5).1 rfl rfl

/-- C10: a failed launch is not cached — `_get_playwright_browser`
returns `none` leaving the singleton unset, and the very next acquire
attempts a fresh launch (which succeeds if that attempt's outcome is a
session).  By contrast `_check_playwright_available` caches its first
result: after one probe, every later probe returns the cached value even
under a different environment. -/
theorem C10_failed_launch_not_cached (env env2 : Env) (s : St) (b : Nat) :
    (s.browser = none →
      (if env.pwImport then env.launchRes s.launches else none) = none →
      (_get_playwright_browser env s).1 = none ∧
      (_get_playwright_browser env s).2.1.browser = none ∧
      (env2.pwImport = true →
        env2.launchRes (_get_playwright_browser env s).2.1.launches = some b →
        (_get_playwright_browser env2 (_get_playwright_browser env s).2.1).1 =
          some b)) ∧
    (s.avail = none →
      (_check_playwright_available env2
          (_check_playwright_available env s).2.1).1 =
        (_check_playwright_available env s).1) := by
  constructor
  · intro hb hl
    cases hp : env.pwImport <;> cases hl2 : env.launchRes s.launches <;>
      simp_all [_get_playwright_browser]
  · intro ha
    simp [_check_playwright_available, ha]

/-- Witness for C10: launch attempt 0 fails (nothing cached), launch
attempt 1 succeeds and returns session 9; and a probe that cached `true`
keeps answering `true` even when the library later disappears. -/
theorem C10_failed_launch_not_cached_witness :
    ((_get_playwright_browser { envOk with launchRes := fun i => if i = 0 then none else some 9 } st0).1 = none ∧
     (_get_playwright_browser { envOk with launchRes := fun i => if i = 0 then none else some 9 }
        (_get_playwright_browser { envOk with launchRes := fun i => if i = 0 then none else some 9 } st0).2.1).1 = some 9) ∧
    (_check_playwright_available { envOk with pwImport := false }
        (_check_playwright_available envOk st0).2.1).1 = true := by
  have h := C10_failed_launch_not_cached
    { envOk with launchRes := fun i => if i = 0 then none else some 9 }
    { envOk with launchRes := fun i => if i = 0 then none else some 9 } st0 9
  exact ⟨⟨(h.1 rfl rfl).1, (h.1 rfl rfl).2.2 rfl rfl⟩,
    (C10_failed_launch_not_cached envOk { envOk with pwImport := false } st0 9).2 rfl⟩

/-- Closed form of the availability probe: it returns the cached value if
one exists, else the import outcome, and caches what it returns. -/
theorem check_eq (env : Env) (s : St) :
    _check_playwright_available env s =
      (s.avail.getD env.pwImport,
        { s with avail := some (s.avail.getD env.pwImport) }, []) := by
  obtain ⟨a, b, l, t, c, f⟩ := s
  cases a <;> rfl

/-- `_get_playwright_browser` emits at most a launch event and only ever
touches the `browser`/`launches` fields of the state. -/
theorem get_browser_spec (env : Env) (s : St) :
    ((_get_playwright_browser env s).2.2 = [] ∨
      (_get_playwright_browser env s).2.2 = [Ev.launch s.launches]) ∧
    (_get_playwright_browser env s).2.1.avail = s.avail ∧
    (_get_playwright_browser env s).2.1.tmpCtr = s.tmpCtr ∧
    (_get_playwright_browser env s).2.1.ctxCtr = s.ctxCtr ∧
    (_get_playwright_browser env s).2.1.fs = s.fs := by
  cases hb : s.browser <;> cases hp : env.pwImport <;>
    cases hl : env.launchRes s.launches <;>
    simp_all [_get_playwright_browser]

/-- An event list containing no backend-entry events contributes nothing
to the tier-attempt counts. -/
theorem counts_of_clean {l : List Ev}
    (h : ∀ e ∈ l, isEmbAttempt e = false ∧ e ≠ Ev.subTier) :
    embAttempts l = 0 ∧ subAttempts l = 0 := by
  refine ⟨List.countP_eq_zero.2 ?_, List.countP_eq_zero.2 ?_⟩ <;> intro e he
  · simp [(h e he).1]
  · simpa using (h e he).2

/-- The `set_default_timeout` events are never tier entries. -/
theorem timeoutEv_clean (c : Nat) (m : Option Nat) :
    ∀ e ∈ timeoutEv c m, isEmbAttempt e = false ∧ e ≠ Ev.subTier := by
  rcases m with _ | t
  · simp [timeoutEv]
  · by_cases ht : t = 0 <;> simp [timeoutEv, ht, isEmbAttempt]

/-- The events of a launch are never tier entries. -/
theorem get_browser_clean (env : Env) (s : St) :
    ∀ e ∈ (_get_playwright_browser env s).2.2,
      isEmbAttempt e = false ∧ e ≠ Ev.subTier := by
  rcases (get_browser_spec env s).1 with h | h <;> rw [h] <;>
    simp [isEmbAttempt]

/-- `_take_screenshot_playwright` leaves the probe cache, the temp-file
counter and the filesystem untouched. -/
theorem tsp_url_state (env : Env) (target : String) (w h : Nat)
    (tM : Option Nat) (s : St) :
    (_take_screenshot_playwright env target w h tM s).2.1.avail = s.avail ∧
    (_take_screenshot_playwright env target w h tM s).2.1.tmpCtr = s.tmpCtr ∧
    (_take_screenshot_playwright env target w h tM s).2.1.fs = s.fs := by
  obtain ⟨_, hav, htmp, hctx, hfs⟩ := get_browser_spec env s
  rcases hg : _get_playwright_browser env s with ⟨b, s1, e1⟩
  rw [hg] at hav htmp hfs
  simp only at hav htmp hfs
  cases b
  all_goals simp only [_take_screenshot_playwright, hg]
  all_goals try split_ifs
  all_goals simp_all

/-- A non-absent `_take_screenshot_playwright` result is an embedded
image of the context freshly opened by this call. -/
theorem tsp_url_tag (env : Env) (target : String) (w h : Nat)
    (tM : Option Nat) (s : St) :
    ∀ i, (_take_screenshot_playwright env target w h tM s).1 = some i →
      i = Img.emb s.ctxCtr := by
  obtain ⟨_, _, _, hctx, _⟩ := get_browser_spec env s
  rcases hg : _get_playwright_browser env s with ⟨b, s1, e1⟩
  rw [hg] at hctx
  simp only at hctx
  cases b
  all_goals simp only [_take_screenshot_playwright, hg]
  all_goals try split_ifs
  all_goals simp_all

/-- The trace of a `_take_screenshot_playwright` run starts with the
embedded-backend entry event and contains no further tier entries. -/
theorem tsp_url_trace (env : Env) (target : String) (w h : Nat)
    (tM : Option Nat) (s : St) :
    ∃ rest, (_take_screenshot_playwright env target w h tM s).2.2 =
        Ev.embUrl :: rest ∧
      ∀ e ∈ rest, isEmbAttempt e = false ∧ e ≠ Ev.subTier := by
  have hcl := get_browser_clean env s
  rcases hg : _get_playwright_browser env s with ⟨b, s1, e1⟩
  rw [hg] at hcl
  simp only at hcl
  have hT := timeoutEv_clean s1.ctxCtr tM
  cases b
  all_goals simp only [_take_screenshot_playwright, hg]
  all_goals try split_ifs
  all_goals refine ⟨_, rfl, ?_⟩
  all_goals
    (intro e he
     try simp only [List.append_eq, List.mem_append, List.mem_cons,
       List.mem_singleton, List.not_mem_nil, or_false, false_or] at he
     try casesm* _ ∨ _
     all_goals
       first
         | exact hcl e (by assumption)
         | exact hT e (by assumption)
         | simp_all [isEmbAttempt])

/-- `_take_screenshot_html_playwright` leaves the probe cache untouched,
and — provided removing its temp HTML file succeeds — restores the
filesystem exactly (round-trip cleanup of the embedded HTML tier). -/
theorem tsp_html_state (env : Env) (html : String) (w h : Nat)
    (tM : Option Nat) (s : St) :
    (_take_screenshot_html_playwright env html w h tM s).2.1.avail = s.avail ∧
    (env.removeOk (env.tmpName s.tmpCtr) = true →
      (_take_screenshot_html_playwright env html w h tM s).2.1.fs = s.fs) := by
  obtain ⟨_, hav, htmp, hctx, hfs⟩ := get_browser_spec env s
  rcases hg : _get_playwright_browser env s with ⟨b, s1, e1⟩
  rw [hg] at hav htmp hfs
  simp only at hav htmp hfs
  cases b
  all_goals simp only [_take_screenshot_html_playwright, hg]
  all_goals try split_ifs
  all_goals simp_all [removeIfExists]
  all_goals try split_ifs
  all_goals simp_all

/-- A non-absent `_take_screenshot_html_playwright` result is an embedded
image of the context freshly opened by this call. -/
theorem tsp_html_tag (env : Env) (html : String) (w h : Nat)
    (tM : Option Nat) (s : St) :
    ∀ i, (_take_screenshot_html_playwright env html w h tM s).1 = some i →
      i = Img.emb s.ctxCtr := by
  obtain ⟨_, _, _, hctx, _⟩ := get_browser_spec env s
  rcases hg : _get_playwright_browser env s with ⟨b, s1, e1⟩
  rw [hg] at hctx
  simp only at hctx
  cases b
  all_goals simp only [_take_screenshot_html_playwright, hg]
  all_goals try split_ifs
  all_goals simp_all

/-- The trace of a `_take_screenshot_html_playwright` run starts with the
embedded-backend entry event and contains no further tier entries. -/
theorem tsp_html_trace (env : Env) (html : String) (w h : Nat)
    (tM : Option Nat) (s : St) :
    ∃ rest, (_take_screenshot_html_playwright env html w h tM s).2.2 =
        Ev.embHtml :: rest ∧
      ∀ e ∈ rest, isEmbAttempt e = false ∧ e ≠ Ev.subTier := by
  have hcl := get_browser_clean env s
  rcases hg : _get_playwright_browser env s with ⟨b, s1, e1⟩
  rw [hg] at hcl
  simp only at hcl
  have hT := timeoutEv_clean s1.ctxCtr tM
  cases b
  all_goals simp only [_take_screenshot_html_playwright, hg]
  all_goals try split_ifs
  all_goals refine ⟨_, rfl, ?_⟩
  all_goals
    (intro e he
     try simp only [List.append_eq, List.mem_append, List.mem_cons,
       List.mem_singleton, List.not_mem_nil, or_false, false_or] at he
     try casesm* _ ∨ _
     all_goals
       first
         | exact hcl e (by assumption)
         | exact hT e (by assumption)
         | simp_all [isEmbAttempt])

/-- The trace of the subprocess fallback tier: the tier-entry event,
followed by at most one subprocess invocation. -/
theorem fallback_trace (env : Env) (target : String) (w h : Nat)
    (tM : Option Nat) (s : St) :
    (take_screenshot_fallback env target w h tM s).2.2 = [Ev.subTier] ∨
    ∃ cmd, (take_screenshot_fallback env target w h tM s).2.2 =
      [Ev.subTier, Ev.runSub cmd] := by
  cases hf : _find_chromium_binary env
  all_goals simp only [take_screenshot_fallback, hf]
  all_goals try split_ifs
  all_goals simp

/-- A non-absent fallback result is a subprocess image decoded from the
reserved output file, and exists only when a binary was found, the
subprocess exited zero and the decode succeeded. -/
theorem fallback_tag (env : Env) (target : String) (w h : Nat)
    (tM : Option Nat) (s : St) :
    ∀ i, (take_screenshot_fallback env target w h tM s).1 = some i →
      i = Img.sub (env.tmpName s.tmpCtr) ∧ env.retcode = 0 ∧
      env.decodeSubOk = true ∧ _find_chromium_binary env ≠ none := by
  cases hf : _find_chromium_binary env
  all_goals simp only [take_screenshot_fallback, hf]
  all_goals try split_ifs
  all_goals simp_all

/-- The fallback tier leaves the probe cache untouched; when the
subprocess succeeds, its decode succeeds and removal succeeds, the
filesystem is restored exactly. -/
theorem fallback_state (env : Env) (target : String) (w h : Nat)
    (tM : Option Nat) (s : St) :
    (take_screenshot_fallback env target w h tM s).2.1.avail = s.avail ∧
    (env.removeOk (env.tmpName s.tmpCtr) = true → env.retcode = 0 →
      env.decodeSubOk = true →
      (take_screenshot_fallback env target w h tM s).2.1.fs = s.fs) := by
  cases hf : _find_chromium_binary env
  all_goals simp only [take_screenshot_fallback, hf]
  all_goals try split_ifs
  all_goals simp_all

theorem subFirst_embUrl (l : List Ev) : subFirst (Ev.embUrl :: l) = false := rfl

theorem subFirst_embHtml (l : List Ev) : subFirst (Ev.embHtml :: l) = false := rfl

theorem subFirst_subTier (l : List Ev) : subFirst (Ev.subTier :: l) = true := rfl

theorem embAttempts_append (l1 l2 : List Ev) :
    embAttempts (l1 ++ l2) = embAttempts l1 + embAttempts l2 :=
  List.countP_append ..

theorem subAttempts_append (l1 l2 : List Ev) :
    subAttempts (l1 ++ l2) = subAttempts l1 + subAttempts l2 :=
  List.countP_append ..

theorem embAttempts_cons_embUrl (l : List Ev) :
    embAttempts (Ev.embUrl :: l) = embAttempts l + 1 := by
  simp [embAttempts, List.countP_cons, isEmbAttempt]

theorem embAttempts_cons_embHtml (l : List Ev) :
    embAttempts (Ev.embHtml :: l) = embAttempts l + 1 := by
  simp [embAttempts, List.countP_cons, isEmbAttempt]

theorem subAttempts_cons_embUrl (l : List Ev) :
    subAttempts (Ev.embUrl :: l) = subAttempts l := by
  simp [subAttempts, List.countP_cons]

theorem subAttempts_cons_embHtml (l : List Ev) :
    subAttempts (Ev.embHtml :: l) = subAttempts l := by
  simp [subAttempts, List.countP_cons]

/-- Updating a field to the value it already has is the identity. -/
theorem St_with_avail (s : St) (b : Option Bool) (h : s.avail = b) :
    ({ s with avail := b } : St) = s := by
  obtain ⟨a, b2, l, t, c, f⟩ := s
  subst h
  rfl

/-- Unfolded control flow of `take_screenshot`, with the availability
probe resolved to its closed form. -/
theorem take_screenshot_eq (env : Env) (target : String) (w h : Nat)
    (tM : Option Nat) (s : St) :
    take_screenshot env target w h tM s =
      (if s.avail.getD env.pwImport then
        if (_take_screenshot_playwright env target w h tM
            { s with avail := some (s.avail.getD env.pwImport) }).1 = none then
          ((take_screenshot_fallback env target w h tM
              (_take_screenshot_playwright env target w h tM
                { s with avail := some (s.avail.getD env.pwImport) }).2.1).1,
           (take_screenshot_fallback env target w h tM
              (_take_screenshot_playwright env target w h tM
                { s with avail := some (s.avail.getD env.pwImport) }).2.1).2.1,
           (_take_screenshot_playwright env target w h tM
              { s with avail := some (s.avail.getD env.pwImport) }).2.2 ++
             (take_screenshot_fallback env target w h tM
               (_take_screenshot_playwright env target w h tM
                 { s with avail := some (s.avail.getD env.pwImport) }).2.1).2.2)
        else
          _take_screenshot_playwright env target w h tM
            { s with avail := some (s.avail.getD env.pwImport) }
      else
        take_screenshot_fallback env target w h tM
          { s with avail := some (s.avail.getD env.pwImport) }) := by
  simp only [take_screenshot, check_eq]
  cases ha : s.avail.getD env.pwImport
  · simp only [ha, Bool.false_eq_true, if_false]
    rcases hF : take_screenshot_fallback env target w h tM
      { s with avail := some false } with ⟨r, s3, e3⟩
    simp
  · simp only [ha, if_true]
    rcases hE : _take_screenshot_playwright env target w h tM
      { s with avail := some true } with ⟨img, s2, e2⟩
    cases img <;> simp only [hE] <;> simp

/-- `take_screenshot` on a state whose probe cache is already set. -/
theorem take_screenshot_eq_set (env : Env) (target : String) (w h : Nat)
    (tM : Option Nat) (s : St) (b : Bool) (hb : s.avail = some b) :
    take_screenshot env target w h tM s =
      (if b then
        if (_take_screenshot_playwright env target w h tM s).1 = none then
          ((take_screenshot_fallback env target w h tM
              (_take_screenshot_playwright env target w h tM s).2.1).1,
           (take_screenshot_fallback env target w h tM
              (_take_screenshot_playwright env target w h tM s).2.1).2.1,
           (_take_screenshot_playwright env target w h tM s).2.2 ++
             (take_screenshot_fallback env target w h tM
               (_take_screenshot_playwright env target w h tM s).2.1).2.2)
        else
          _take_screenshot_playwright env target w h tM s
      else
        take_screenshot_fallback env target w h tM s) := by
  have h := take_screenshot_eq env target w h tM s
  rw [hb] at h
  simp only [Option.getD_some] at h
  rw [St_with_avail s (some b) hb] at h
  exact h

/-- Unfolded control flow of `take_screenshot_html`, with the
availability probe resolved to its closed form. -/
theorem take_screenshot_html_eq (env : Env) (html : String) (w h : Nat)
    (tM : Option Nat) (s : St) :
    take_screenshot_html env html w h tM s =
      (if s.avail.getD env.pwImport then
        if (_take_screenshot_html_playwright env html w h tM
            { s with avail := some (s.avail.getD env.pwImport) }).1 = none then
          ((take_screenshot_html_fallback env html w h tM
              (_take_screenshot_html_playwright env html w h tM
                { s with avail := some (s.avail.getD env.pwImport) }).2.1).1,
           (take_screenshot_html_fallback env html w h tM
              (_take_screenshot_html_playwright env html w h tM
                { s with avail := some (s.avail.getD env.pwImport) }).2.1).2.1,
           (_take_screenshot_html_playwright env html w h tM
              { s with avail := some (s.avail.getD env.pwImport) }).2.2 ++
             (take_screenshot_html_fallback env html w h tM
               (_take_screenshot_html_playwright env html w h tM
                 { s with avail := some (s.avail.getD env.pwImport) }).2.1).2.2)
        else
          _take_screenshot_html_playwright env html w h tM
            { s with avail := some (s.avail.getD env.pwImport) }
      else
        take_screenshot_html_fallback env html w h tM
          { s with avail := some (s.avail.getD env.pwImport) }) := by
  simp only [take_screenshot_html, check_eq]
  cases ha : s.avail.getD env.pwImport
  · simp only [ha, Bool.false_eq_true, if_false]
    rcases hF : take_screenshot_html_fallback env html w h tM
      { s with avail := some false } with ⟨r, s3, e3⟩
    simp
  · simp only [ha, if_true]
    rcases hE : _take_screenshot_html_playwright env html w h tM
      { s with avail := some true } with ⟨img, s2, e2⟩
    cases img <;> simp only [hE] <;> simp

/-- The state after staging the temp HTML file in the fallback branch of
`take_screenshot_html` (image_utils.py:238-240). -/
def staged (env : Env) (s : St) : St :=
  { s with tmpCtr := s.tmpCtr + 1, fs := env.tmpName s.tmpCtr :: s.fs }

/-- The HTML fallback returns exactly the image and trace of the
delegated `take_screenshot` call on the staged HTML file. -/
theorem html_fallback_parts (env : Env) (html : String) (w h : Nat)
    (tM : Option Nat) (s : St) :
    (take_screenshot_html_fallback env html w h tM s).1 =
      (take_screenshot env (env.tmpName s.tmpCtr) w h tM (staged env s)).1 ∧
    (take_screenshot_html_fallback env html w h tM s).2.2 =
      (take_screenshot env (env.tmpName s.tmpCtr) w h tM (staged env s)).2.2 := by
  have hst : ({ s with tmpCtr := s.tmpCtr + 1, fs := env.tmpName s.tmpCtr :: s.fs } : St) = staged env s := rfl
  rcases hI : take_screenshot env (env.tmpName s.tmpCtr) w h tM (staged env s)
    with ⟨r, s2, e2⟩
  simp only [take_screenshot_html_fallback, hst, hI]
  try split_ifs
  all_goals simp

/-- Environment for the C1 counterexample: Playwright importable and
launchable, navigation fails on the first browsing context (the HTML-mode
embedded attempt) and succeeds on the second (the file-mode embedded
attempt made by the delegated `take_screenshot`). -/
def envC1 : Env := { envOk with gotoOk := fun c => decide (c ≠ 0) }

/-- C1 counterexample: in this `take_screenshot_html` call the embedded
HTML attempt returns absence, yet the subprocess tier is never attempted
(count 0, contradicting "attempts the subprocess backend exactly once
when ... the embedded attempt returned absence"), because the embedded
backend is attempted a second time — twice in one call, contradicting
"each tier is attempted at most once per call" — and that second attempt
produces the returned image. -/
theorem C1_counterexample :
    (_take_screenshot_html_playwright envC1 "<html><body>hi</body></html>"
        800 480 none { st0 with avail := some true }).1 = none ∧
    embAttempts (take_screenshot_html envC1 "<html><body>hi</body></html>"
        800 480 none st0).2.2 = 2 ∧
    subAttempts (take_screenshot_html envC1 "<html><body>hi</body></html>"
        800 480 none st0).2.2 = 0 ∧
    (take_screenshot_html envC1 "<html><body>hi</body></html>"
        800 480 none st0).1 = some (Img.emb 1) := by
  refine ⟨rfl, rfl, rfl, rfl⟩

theorem embAttempts_fb1 : embAttempts [Ev.subTier] = 0 := rfl

theorem subAttempts_fb1 : subAttempts [Ev.subTier] = 1 := rfl

theorem embAttempts_fb2 (cmd : List String) :
    embAttempts [Ev.subTier, Ev.runSub cmd] = 0 := rfl

theorem subAttempts_fb2 (cmd : List String) :
    subAttempts [Ev.subTier, Ev.runSub cmd] = 1 := rfl

/-- Tiering discipline of `take_screenshot`: embedded attempted iff the
probe reports available; at most one attempt per tier; subprocess first
iff the engine is unavailable; a non-absent embedded result is returned
with no subprocess attempt; embedded absence triggers exactly one
subprocess attempt whose result is final. -/
theorem ts_tiering_spec (env : Env) (target : String) (w h : Nat)
    (tM : Option Nat) (s : St) :
    (Ev.embUrl ∈ (take_screenshot env target w h tM s).2.2 ↔
      (_check_playwright_available env s).1 = true) ∧
    embAttempts (take_screenshot env target w h tM s).2.2 ≤ 1 ∧
    subAttempts (take_screenshot env target w h tM s).2.2 ≤ 1 ∧
    subFirst (take_screenshot env target w h tM s).2.2 =
      !(_check_playwright_available env s).1 ∧
    ((_check_playwright_available env s).1 = true →
      ∀ i, (_take_screenshot_playwright env target w h tM
          (_check_playwright_available env s).2.1).1 = some i →
        (take_screenshot env target w h tM s).1 = some i ∧
        subAttempts (take_screenshot env target w h tM s).2.2 = 0) ∧
    ((_check_playwright_available env s).1 = true →
      (_take_screenshot_playwright env target w h tM
          (_check_playwright_available env s).2.1).1 = none →
      subAttempts (take_screenshot env target w h tM s).2.2 = 1 ∧
      (take_screenshot env target w h tM s).1 =
        (take_screenshot_fallback env target w h tM
          (_take_screenshot_playwright env target w h tM
            (_check_playwright_available env s).2.1).2.1).1) ∧
    ((_check_playwright_available env s).1 = false →
      subAttempts (take_screenshot env target w h tM s).2.2 = 1 ∧
      (take_screenshot env target w h tM s).1 =
        (take_screenshot_fallback env target w h tM
          (_check_playwright_available env s).2.1).1) := by
  rw [take_screenshot_eq]
  simp only [check_eq]
  cases ha : s.avail.getD env.pwImport
  · simp only [ha, Bool.false_eq_true, if_false]
    rcases hF : take_screenshot_fallback env target w h tM
      { s with avail := some false } with ⟨r, s3, e3⟩
    have htr := fallback_trace env target w h tM { s with avail := some false }
    rw [hF] at htr
    simp only at htr
    rcases htr with h3 | ⟨cmd, h3⟩ <;> subst h3 <;>
      simp [embAttempts_fb1, subAttempts_fb1, embAttempts_fb2, subAttempts_fb2,
        subFirst_subTier]
  · simp only [ha, if_true]
    rcases hE : _take_screenshot_playwright env target w h tM
      { s with avail := some true } with ⟨img, s2, e2⟩
    obtain ⟨rest, hrest, hclean⟩ := tsp_url_trace env target w h tM
      { s with avail := some true }
    rw [hE] at hrest
    simp only at hrest
    subst hrest
    obtain ⟨hc1, hc2⟩ := counts_of_clean hclean
    cases img
    · rcases hF : take_screenshot_fallback env target w h tM s2 with ⟨r, s3, e3⟩
      have htr := fallback_trace env target w h tM s2
      rw [hF] at htr
      simp only at htr
      rcases htr with h3 | ⟨cmd, h3⟩ <;> subst h3 <;>
        simp [embAttempts_append, subAttempts_append, embAttempts_cons_embUrl,
          subAttempts_cons_embUrl, subFirst_embUrl, hc1, hc2,
          embAttempts_fb1, subAttempts_fb1, embAttempts_fb2, subAttempts_fb2]
    · simp [embAttempts_cons_embUrl, subAttempts_cons_embUrl, subFirst_embUrl,
        hc1, hc2]


/-- Tiering discipline of `take_screenshot_html`: the embedded backend is
entered iff the probe reports available, and a non-absent embedded HTML
result is final with no further attempts; but when the probe is positive
and the embedded HTML attempt returns absence, the staged-file delegation
to `take_screenshot` attempts the embedded backend a second time, and the
subprocess tier runs only if that also fails — so the embedded backend is
attempted up to twice per call, the subprocess tier at most once and
never first. -/
theorem ts_html_tiering_spec (env : Env) (html : String) (w h : Nat)
    (tM : Option Nat) (s : St) :
    (Ev.embHtml ∈ (take_screenshot_html env html w h tM s).2.2 ↔
      (_check_playwright_available env s).1 = true) ∧
    embAttempts (take_screenshot_html env html w h tM s).2.2 ≤ 2 ∧
    subAttempts (take_screenshot_html env html w h tM s).2.2 ≤ 1 ∧
    subFirst (take_screenshot_html env html w h tM s).2.2 =
      !(_check_playwright_available env s).1 ∧
    ((_check_playwright_available env s).1 = true →
      ∀ i, (_take_screenshot_html_playwright env html w h tM
          (_check_playwright_available env s).2.1).1 = some i →
        (take_screenshot_html env html w h tM s).1 = some i ∧
        subAttempts (take_screenshot_html env html w h tM s).2.2 = 0 ∧
        embAttempts (take_screenshot_html env html w h tM s).2.2 = 1) ∧
    ((_check_playwright_available env s).1 = true →
      (_take_screenshot_html_playwright env html w h tM
          (_check_playwright_available env s).2.1).1 = none →
      embAttempts (take_screenshot_html env html w h tM s).2.2 = 2 ∧
      (subAttempts (take_screenshot_html env html w h tM s).2.2 = 0 ↔
        ∃ c, (take_screenshot_html env html w h tM s).1 = some (Img.emb c))) := by
  simp only [check_eq]
  cases ha : s.avail.getD env.pwImport
  · -- probe negative: the whole call is the staged-file fallback, whose
    -- delegated take_screenshot sees the cached negative probe and goes
    -- straight to the subprocess tier.
    have hT2 := take_screenshot_html_eq env html w h tM s
    rw [ha] at hT2
    simp only [Bool.false_eq_true, if_false] at hT2
    obtain ⟨hf1, hf2⟩ := html_fallback_parts env html w h tM
      { s with avail := some false }
    have hIn := take_screenshot_eq_set env
      (env.tmpName ({ s with avail := some false } : St).tmpCtr) w h tM
      (staged env { s with avail := some false }) false rfl
    simp only [Bool.false_eq_true, if_false] at hIn
    rcases hF : take_screenshot_fallback env
      (env.tmpName ({ s with avail := some false } : St).tmpCtr) w h tM
      (staged env { s with avail := some false }) with ⟨r, s3, e3⟩
    rw [hF] at hIn
    have htr := fallback_trace env
      (env.tmpName ({ s with avail := some false } : St).tmpCtr) w h tM
      (staged env { s with avail := some false })
    rw [hF] at htr
    simp only at htr
    rcases hHF : take_screenshot_html_fallback env html w h tM
      { s with avail := some false } with ⟨r5, s5, e5⟩
    rw [hHF] at hT2 hf1 hf2
    simp only at hf1 hf2
    rw [hIn] at hf1 hf2
    simp only at hf1 hf2
    subst hf1
    subst hf2
    rw [hT2]
    rcases htr with h3 | ⟨cmd, h3⟩ <;> subst h3 <;>
      simp [embAttempts_fb1, subAttempts_fb1, embAttempts_fb2, subAttempts_fb2,
        subFirst_subTier]
  · -- probe positive: embedded HTML attempt first.
    have hT2 := take_screenshot_html_eq env html w h tM s
    rw [ha] at hT2
    simp only [if_true] at hT2
    rcases hE : _take_screenshot_html_playwright env html w h tM
      { s with avail := some true } with ⟨img, s2, e2⟩
    rw [hE] at hT2
    obtain ⟨rest, hrest, hclean⟩ := tsp_html_trace env html w h tM
      { s with avail := some true }
    rw [hE] at hrest
    simp only at hrest
    subst hrest
    obtain ⟨hc1, hc2⟩ := counts_of_clean hclean
    have hav2 := (tsp_html_state env html w h tM { s with avail := some true }).1
    rw [hE] at hav2
    simp only at hav2
    have hav2' : s2.avail = some true := hav2
    cases img
    · -- embedded HTML attempt returned absence: staged-file delegation.
      simp at hT2
      obtain ⟨hf1, hf2⟩ := html_fallback_parts env html w h tM s2
      have hsa : (staged env s2).avail = some true := hav2'
      have hIn := take_screenshot_eq_set env (env.tmpName s2.tmpCtr) w h tM
        (staged env s2) true hsa
      simp only [if_true] at hIn
      rcases hIE : _take_screenshot_playwright env (env.tmpName s2.tmpCtr) w h tM
        (staged env s2) with ⟨img2, s4, e4⟩
      rw [hIE] at hIn
      obtain ⟨rest2, hrest2, hclean2⟩ := tsp_url_trace env (env.tmpName s2.tmpCtr)
        w h tM (staged env s2)
      rw [hIE] at hrest2
      simp only at hrest2
      subst hrest2
      obtain ⟨hc3, hc4⟩ := counts_of_clean hclean2
      have htag2 := tsp_url_tag env (env.tmpName s2.tmpCtr) w h tM (staged env s2)
      rw [hIE] at htag2
      simp only at htag2
      cases img2
      · -- second embedded attempt also failed: subprocess tier, exactly once.
        simp at hIn
        rcases hF : take_screenshot_fallback env (env.tmpName s2.tmpCtr) w h tM s4
          with ⟨rF, s6, e6⟩
        rw [hF] at hIn
        have htr := fallback_trace env (env.tmpName s2.tmpCtr) w h tM s4
        rw [hF] at htr
        simp only at htr
        have htag := fallback_tag env (env.tmpName s2.tmpCtr) w h tM s4
        rw [hF] at htag
        simp only at htag
        have hrF : ∀ c, rF ≠ some (Img.emb c) := by
          intro c hcon
          have := (htag _ hcon).1
          simp at this
        rcases hHF : take_screenshot_html_fallback env html w h tM s2
          with ⟨r5, s5, e5⟩
        rw [hHF] at hT2 hf1 hf2
        simp only at hT2 hf1 hf2
        rw [hIn] at hf1 hf2
        simp only at hf1 hf2
        subst hf1
        subst hf2
        rw [hT2]
        rcases htr with h3 | ⟨cmd, h3⟩ <;> subst h3 <;>
          simp [hE, embAttempts_append, subAttempts_append,
            embAttempts_cons_embUrl, subAttempts_cons_embUrl,
            embAttempts_cons_embHtml, subAttempts_cons_embHtml,
            subFirst_embHtml, hc1, hc2, hc3, hc4,
            embAttempts_fb1, subAttempts_fb1, embAttempts_fb2, subAttempts_fb2,
            hrF]
      · -- second embedded attempt succeeded: its image is final, no
        -- subprocess attempt at all.
        rename_i i2
        simp at hIn
        rcases hHF : take_screenshot_html_fallback env html w h tM s2
          with ⟨r5, s5, e5⟩
        rw [hHF] at hT2 hf1 hf2
        simp only at hT2 hf1 hf2
        rw [hIn] at hf1 hf2
        simp only at hf1 hf2
        subst hf1
        subst hf2
        rw [hT2]
        have hi2 := htag2 i2 rfl
        simp [hE, embAttempts_append, subAttempts_append,
          embAttempts_cons_embUrl, subAttempts_cons_embUrl,
          embAttempts_cons_embHtml, subAttempts_cons_embHtml,
          subFirst_embHtml, hc1, hc2, hc3, hc4, hi2]
    · -- embedded HTML attempt succeeded: final, one embedded attempt only.
      simp at hT2
      rw [hT2]
      simp [hE, embAttempts_cons_embHtml, subAttempts_cons_embHtml,
        subFirst_embHtml, hc1, hc2]

/-- C1 (amended): for `take_screenshot` the claim holds as stated — the
embedded backend is attempted iff the probe reports the engine available,
a non-absent embedded result is returned immediately with no subprocess
attempt, the subprocess tier is attempted exactly once iff the engine is
unavailable or the embedded attempt returned absence and its result is
final, each tier is attempted at most once, and the subprocess tier runs
first exactly when the engine is unavailable.  For `take_screenshot_html`
the original claim fails: its fallback stages the HTML to a file and
delegates to `take_screenshot`, so when the engine is available and the
HTML-mode embedded attempt returns absence the embedded backend is
attempted a *second* time (file mode) before the subprocess tier — the
embedded tier may run twice per call, and the subprocess tier runs (at
most once, never first) only if that second attempt also fails. -/
theorem C1_tiering_amended (env : Env) (target html : String) (w h : Nat)
    (tM : Option Nat) (s : St) :
    ((Ev.embUrl ∈ (take_screenshot env target w h tM s).2.2 ↔
        (_check_playwright_available env s).1 = true) ∧
      embAttempts (take_screenshot env target w h tM s).2.2 ≤ 1 ∧
      subAttempts (take_screenshot env target w h tM s).2.2 ≤ 1 ∧
      subFirst (take_screenshot env target w h tM s).2.2 =
        !(_check_playwright_available env s).1 ∧
      ((_check_playwright_available env s).1 = true →
        ∀ i, (_take_screenshot_playwright env target w h tM
            (_check_playwright_available env s).2.1).1 = some i →
          (take_screenshot env target w h tM s).1 = some i ∧
          subAttempts (take_screenshot env target w h tM s).2.2 = 0) ∧
      ((_check_playwright_available env s).1 = true →
        (_take_screenshot_playwright env target w h tM
            (_check_playwright_available env s).2.1).1 = none →
        subAttempts (take_screenshot env target w h tM s).2.2 = 1 ∧
        (take_screenshot env target w h tM s).1 =
          (take_screenshot_fallback env target w h tM
            (_take_screenshot_playwright env target w h tM
              (_check_playwright_available env s).2.1).2.1).1) ∧
      ((_check_playwright_available env s).1 = false →
        subAttempts (take_screenshot env target w h tM s).2.2 = 1 ∧
        (take_screenshot env target w h tM s).1 =
          (take_screenshot_fallback env target w h tM
            (_check_playwright_available env s).2.1).1)) ∧
    ((Ev.embHtml ∈ (take_screenshot_html env html w h tM s).2.2 ↔
        (_check_playwright_available env s).1 = true) ∧
      embAttempts (take_screenshot_html env html w h tM s).2.2 ≤ 2 ∧
      subAttempts (take_screenshot_html env html w h tM s).2.2 ≤ 1 ∧
      subFirst (take_screenshot_html env html w h tM s).2.2 =
        !(_check_playwright_available env s).1 ∧
      ((_check_playwright_available env s).1 = true →
        ∀ i, (_take_screenshot_html_playwright env html w h tM
            (_check_playwright_available env s).2.1).1 = some i →
          (take_screenshot_html env html w h tM s).1 = some i ∧
          subAttempts (take_screenshot_html env html w h tM s).2.2 = 0 ∧
          embAttempts (take_screenshot_html env html w h tM s).2.2 = 1) ∧
      ((_check_playwright_available env s).1 = true →
        (_take_screenshot_html_playwright env html w h tM
            (_check_playwright_available env s).2.1).1 = none →
        embAttempts (take_screenshot_html env html w h tM s).2.2 = 2 ∧
        (subAttempts (take_screenshot_html env html w h tM s).2.2 = 0 ↔
          ∃ c, (take_screenshot_html env html w h tM s).1 =
            some (Img.emb c)))) :=
  ⟨ts_tiering_spec env target w h tM s, ts_html_tiering_spec env html w h tM s⟩

/-- Witness for C1 (amended): with the healthy environment the probe is
positive and both calls enter the embedded backend. -/
theorem C1_tiering_amended_witness :
    Ev.embUrl ∈ (take_screenshot envOk "http://x" 800 480 none st0).2.2 ∧
    Ev.embHtml ∈ (take_screenshot_html envOk "<p>hi</p>" 800 480 none st0).2.2 :=
  ⟨(C1_tiering_amended envOk "http://x" "<p>hi</p>" 800 480 none st0).1.1.mpr rfl,
   (C1_tiering_amended envOk "http://x" "<p>hi</p>" 800 480 none st0).2.1.mpr rfl⟩

/-- Environment for the C2 counterexample: no Playwright, a Chromium
binary on PATH, subprocess exits non-zero; removals would succeed. -/
def envLeak : Env :=
  { envOk with
      pwImport := false,
      which := fun c => if c = "chromium-headless-shell"
        then some "/usr/bin/chromium" else none,
      retcode := 1 }

/-- C2 counterexample: starting from an empty disk, this failing
subprocess-tier call returns absence but leaves the reserved screenshot
output file `tmp0` — created during the call — on disk after returning,
because the early `return None` on non-zero exit (image_utils.py:327-329)
skips the `os.remove` at line 336. -/
theorem C2_counterexample :
    (take_screenshot envLeak "http://x" 800 480 none st0).1 = none ∧
    "tmp0" ∉ st0.fs ∧
    "tmp0" ∈ (take_screenshot envLeak "http://x" 800 480 none st0).2.1.fs := by
  refine ⟨rfl, by simp [st0], ?_⟩
  show "tmp0" ∈ ["tmp0"]
  simp

/-- Filesystem round trip for `take_screenshot`: provided removals
succeed and a subprocess run (if any) exits zero and decodes, the call
restores the filesystem exactly. -/
theorem ts_fs_spec (env : Env) (target : String) (w h : Nat)
    (tM : Option Nat) (s : St) (hrm : ∀ q, env.removeOk q = true)
    (hrc : env.retcode = 0) (hdec : env.decodeSubOk = true) :
    (take_screenshot env target w h tM s).2.1.fs = s.fs := by
  rw [take_screenshot_eq]
  cases ha : s.avail.getD env.pwImport
  · simp only [ha, Bool.false_eq_true, if_false]
    have hfb := (fallback_state env target w h tM
      { s with avail := some false }).2 (hrm _) hrc hdec
    simpa using hfb
  · simp only [ha, if_true]
    rcases hE : _take_screenshot_playwright env target w h tM
      { s with avail := some true } with ⟨img, s2, e2⟩
    have hfs := (tsp_url_state env target w h tM
      { s with avail := some true }).2.2
    rw [hE] at hfs
    simp only at hfs
    cases img
    · have hfb := (fallback_state env target w h tM s2).2 (hrm _) hrc hdec
      simp [hfb, hfs]
    · simp [hfs]

/-- Filesystem round trip for the staged-HTML fallback branch. -/
theorem html_fallback_fs (env : Env) (html : String) (w h : Nat)
    (tM : Option Nat) (s : St) (hrm : ∀ q, env.removeOk q = true)
    (hrc : env.retcode = 0) (hdec : env.decodeSubOk = true) :
    (take_screenshot_html_fallback env html w h tM s).2.1.fs = s.fs := by
  rcases hI : take_screenshot env (env.tmpName s.tmpCtr) w h tM (staged env s)
    with ⟨r, s2, e2⟩
  have hfs := ts_fs_spec env (env.tmpName s.tmpCtr) w h tM (staged env s)
    hrm hrc hdec
  rw [hI] at hfs
  simp only [staged] at hfs
  have hst : ({ s with tmpCtr := s.tmpCtr + 1, fs := env.tmpName s.tmpCtr :: s.fs } : St) = staged env s := rfl
  simp only [take_screenshot_html_fallback, hst, hI]
  simp [hrm, hfs]

/-- Filesystem round trip for `take_screenshot_html` under the same
conditions. -/
theorem tshtml_fs_spec (env : Env) (html : String) (w h : Nat)
    (tM : Option Nat) (s : St) (hrm : ∀ q, env.removeOk q = true)
    (hrc : env.retcode = 0) (hdec : env.decodeSubOk = true) :
    (take_screenshot_html env html w h tM s).2.1.fs = s.fs := by
  rw [take_screenshot_html_eq]
  cases ha : s.avail.getD env.pwImport
  · simp only [ha, Bool.false_eq_true, if_false]
    have hfb := html_fallback_fs env html w h tM { s with avail := some false }
      hrm hrc hdec
    simpa using hfb
  · simp only [ha, if_true]
    rcases hE : _take_screenshot_html_playwright env html w h tM
      { s with avail := some true } with ⟨img, s2, e2⟩
    have hfs := (tsp_html_state env html w h tM
      { s with avail := some true }).2 (hrm _)
    rw [hE] at hfs
    simp only at hfs
    cases img
    · have hfb := html_fallback_fs env html w h tM s2 hrm hrc hdec
      simp [hfb, hfs]
    · simp [hfs]

/-- C2 (amended): no temporary file created during a render call remains
on disk after the call returns, *provided* file removal succeeds and any
subprocess run exits zero with a decodable output.  When the subprocess
tier fails (non-zero exit, missing output, or decode error) the reserved
screenshot output file is leaked — see the counterexample — because the
early return skips the removal. -/
theorem C2_cleanup_amended (env : Env) (target html : String) (w h : Nat)
    (tM : Option Nat) (s : St) (hrm : ∀ q, env.removeOk q = true)
    (hrc : env.retcode = 0) (hdec : env.decodeSubOk = true) :
    (take_screenshot env target w h tM s).2.1.fs = s.fs ∧
    (take_screenshot_html env html w h tM s).2.1.fs = s.fs :=
  ⟨ts_fs_spec env target w h tM s hrm hrc hdec,
   tshtml_fs_spec env html w h tM s hrm hrc hdec⟩

/-- Witness for C2 (amended): a healthy end-to-end run starting from an
empty disk ends with an empty disk. -/
theorem C2_cleanup_amended_witness :
    (take_screenshot envOk "http://x" 800 480 none st0).2.1.fs = st0.fs ∧
    (take_screenshot_html envOk "<p>hi</p>" 800 480 none st0).2.1.fs = st0.fs :=
  C2_cleanup_amended envOk "http://x" "<p>hi</p>" 800 480 none st0
    (fun _ => rfl) rfl rfl

/-- Tier-success tagging for `take_screenshot`: a non-absent result was
produced by a fully successful tier — an embedded image (only possible
when the probe is positive) or a subprocess image (only possible when a
binary was found, the subprocess exited zero and the decode succeeded). -/
theorem ts_tag_spec (env : Env) (target : String) (w h : Nat)
    (tM : Option Nat) (s : St) :
    ∀ i, (take_screenshot env target w h tM s).1 = some i →
      (∃ c, i = Img.emb c ∧ (_check_playwright_available env s).1 = true) ∨
      (∃ p, i = Img.sub p ∧ _find_chromium_binary env ≠ none ∧
        env.retcode = 0 ∧ env.decodeSubOk = true) := by
  rw [take_screenshot_eq]
  simp only [check_eq]
  cases ha : s.avail.getD env.pwImport
  · simp only [ha, Bool.false_eq_true, if_false]
    intro i hi
    have h := fallback_tag env target w h tM { s with avail := some false } i hi
    exact Or.inr ⟨_, h.1, h.2.2.2, h.2.1, h.2.2.1⟩
  · simp only [ha, if_true]
    rcases hE : _take_screenshot_playwright env target w h tM
      { s with avail := some true } with ⟨img, s2, e2⟩
    have htagE := tsp_url_tag env target w h tM { s with avail := some true }
    rw [hE] at htagE
    simp only at htagE
    cases img
    · simp only [Option.some.injEq]
      intro i hi
      have h := fallback_tag env target w h tM s2 i (by simpa using hi)
      exact Or.inr ⟨_, h.1, h.2.2.2, h.2.1, h.2.2.1⟩
    · intro i hi
      simp at hi
      subst hi
      exact Or.inl ⟨_, htagE _ rfl, by trivial⟩

/-- Tier-success tagging for `take_screenshot_html`, including through
the staged-file delegation. -/
theorem tshtml_tag_spec (env : Env) (html : String) (w h : Nat)
    (tM : Option Nat) (s : St) :
    ∀ i, (take_screenshot_html env html w h tM s).1 = some i →
      (∃ c, i = Img.emb c ∧ (_check_playwright_available env s).1 = true) ∨
      (∃ p, i = Img.sub p ∧ _find_chromium_binary env ≠ none ∧
        env.retcode = 0 ∧ env.decodeSubOk = true) := by
  rw [take_screenshot_html_eq]
  simp only [check_eq]
  cases ha : s.avail.getD env.pwImport
  · simp only [ha, Bool.false_eq_true, if_false]
    intro i hi
    rw [(html_fallback_parts env html w h tM { s with avail := some false }).1]
      at hi
    have h := ts_tag_spec env
      (env.tmpName ({ s with avail := some false } : St).tmpCtr) w h tM
      (staged env { s with avail := some false }) i hi
    rcases h with ⟨c, hic, hpro⟩ | hsub
    · exfalso
      simp [check_eq, staged] at hpro
    · exact Or.inr hsub
  · simp only [ha, if_true]
    rcases hE : _take_screenshot_html_playwright env html w h tM
      { s with avail := some true } with ⟨img, s2, e2⟩
    have htagE := tsp_html_tag env html w h tM { s with avail := some true }
    rw [hE] at htagE
    simp only at htagE
    have hav2 := (tsp_html_state env html w h tM { s with avail := some true }).1
    rw [hE] at hav2
    simp only at hav2
    cases img
    · simp only [Option.some.injEq]
      intro i hi
      have hi2 : (take_screenshot_html_fallback env html w h tM s2).1 = some i :=
        by simpa using hi
      rw [(html_fallback_parts env html w h tM s2).1] at hi2
      have h := ts_tag_spec env (env.tmpName s2.tmpCtr) w h tM
        (staged env s2) i hi2
      rcases h with ⟨c, hic, _⟩ | hsub
      · exact Or.inl ⟨c, hic, by trivial⟩
      · exact Or.inr hsub
    · intro i hi
      simp at hi
      subst hi
      exact Or.inl ⟨_, htagE _ rfl, by trivial⟩

/-- C3: neither `take_screenshot` nor `take_screenshot_html` can signal
failure in any way other than absence.  In the embedding every Python
`try/except` is a total branch, so the functions are total — no
exception reaches the caller — and this theorem shows a non-absent
result only arises from a fully successful tier: every failure
combination (probe negative with failing subprocess tier, embedded
failure with failing subprocess tier, no binary, non-zero exit, decode
failure) therefore yields `none`, the only caller-visible failure
signal. -/
theorem C3_absence_only_failure_signal (env : Env) (target html : String)
    (w h : Nat) (tM : Option Nat) (s : St) :
    (∀ i, (take_screenshot env target w h tM s).1 = some i →
      (∃ c, i = Img.emb c ∧ (_check_playwright_available env s).1 = true) ∨
      (∃ p, i = Img.sub p ∧ _find_chromium_binary env ≠ none ∧
        env.retcode = 0 ∧ env.decodeSubOk = true)) ∧
    (∀ i, (take_screenshot_html env html w h tM s).1 = some i →
      (∃ c, i = Img.emb c ∧ (_check_playwright_available env s).1 = true) ∨
      (∃ p, i = Img.sub p ∧ _find_chromium_binary env ≠ none ∧
        env.retcode = 0 ∧ env.decodeSubOk = true)) :=
  ⟨ts_tag_spec env target w h tM s, tshtml_tag_spec env html w h tM s⟩

/-- Witness for C3: the healthy embedded run produces an embedded image
and the theorem attributes it to the positive probe. -/
theorem C3_absence_only_failure_signal_witness :
    (∃ c, Img.emb 0 = Img.emb c ∧
      (_check_playwright_available envOk st0).1 = true) ∨
    (∃ p, Img.emb 0 = Img.sub p ∧ _find_chromium_binary envOk ≠ none ∧
      envOk.retcode = 0 ∧ envOk.decodeSubOk = true) :=
  (C3_absence_only_failure_signal envOk "http://x" "<p>hi</p>" 800 480 none
    st0).1 (Img.emb 0) rfl

/-- C5: the subprocess tier of `take_screenshot` (the fallback section,
image_utils.py:286-341).  With no binary located it returns absence
without any subprocess invocation (the trace is just the tier entry); a
non-zero exit yields absence; a non-absent result exists only when the
subprocess exited zero and the reserved output file was decoded — the
returned image is exactly the decode of that file.  The last conjunct
ties the tier to `take_screenshot`: with a negative probe the call's
result is the fallback tier's result. -/
theorem C5_subprocess_tier (env : Env) (target : String) (w h : Nat)
    (tM : Option Nat) (s : St) :
    (_find_chromium_binary env = none →
      take_screenshot_fallback env target w h tM s = (none, s, [Ev.subTier])) ∧
    (env.retcode ≠ 0 → (take_screenshot_fallback env target w h tM s).1 = none) ∧
    (∀ i, (take_screenshot_fallback env target w h tM s).1 = some i →
      env.retcode = 0 ∧ env.decodeSubOk = true ∧
      i = Img.sub (env.tmpName s.tmpCtr)) ∧
    ((_check_playwright_available env s).1 = false →
      (take_screenshot env target w h tM s).1 =
        (take_screenshot_fallback env target w h tM
          (_check_playwright_available env s).2.1).1) := by
  refine ⟨?_, ?_, ?_, ?_⟩
  · intro hb
    simp [take_screenshot_fallback, hb]
  · intro hrc
    cases hf : _find_chromium_binary env
    · simp [take_screenshot_fallback, hf]
    · simp [take_screenshot_fallback, hf, hrc]
  · intro i hi
    have h := fallback_tag env target w h tM s i hi
    exact ⟨h.2.1, h.2.2.1, h.1⟩
  · intro hpro
    exact ((ts_tiering_spec env target w h tM s).2.2.2.2.2.2 hpro).2

/-- Environment with no Playwright and a Chromium binary on PATH; the
subprocess succeeds. -/
def envSub : Env :=
  { envOk with
      pwImport := false,
      which := fun c => if c = "chromium-headless-shell"
        then some "/usr/bin/chromium" else none }

/-- Witness for C5: a successful subprocess run decodes the reserved
output file `tmp0`. -/
theorem C5_subprocess_tier_witness :
    envSub.retcode = 0 ∧ envSub.decodeSubOk = true ∧
    Img.sub "tmp0" = Img.sub (envSub.tmpName st0.tmpCtr) :=
  (C5_subprocess_tier envSub "http://x" 800 480 none st0).2.2.1
    (Img.sub "tmp0") rfl

/-- `set_default_timeout` events are never navigations. -/
theorem timeoutEv_mem (c : Nat) (m : Option Nat) (e : Ev)
    (he : e ∈ timeoutEv c m) : ∃ t, e = Ev.setTimeout c t := by
  rcases m with _ | t
  · simp [timeoutEv] at he
  · by_cases ht : t = 0 <;> simp [timeoutEv, ht] at he <;> exact ⟨t, he⟩

theorem timeoutEv_no_goto (c : Nat) (m : Option Nat) (c2 : Nat) (u : String) :
    Ev.goto c2 u ∉ timeoutEv c m := by
  intro hmem
  obtain ⟨t, ht⟩ := timeoutEv_mem c m _ hmem
  exact Ev.noConfusion ht

/-- C6 (amended): it is the *embedded* backend that rewrites an existing
local-file target to a `file://` reference (and passes any other target
through unchanged); the subprocess tier passes the target to the browser
executable unchanged in all cases — the command's second element is the
raw target. -/
theorem C6_target_resolution_amended (env : Env) (target : String)
    (w h : Nat) (tM : Option Nat) (s : St) :
    (∀ c u, Ev.goto c u ∈
        (_take_screenshot_playwright env target w h tM s).2.2 →
      u = (if env.isFile target then "file://" ++ env.abspath target
        else target)) ∧
    (∀ cmd, Ev.runSub cmd ∈
        (take_screenshot_fallback env target w h tM s).2.2 →
      cmd[1]? = some target) := by
  constructor
  · have hge := (get_browser_spec env s).1
    rcases hg : _get_playwright_browser env s with ⟨b, s1, e1⟩
    rw [hg] at hge
    simp only at hge
    cases b
    all_goals simp only [_take_screenshot_playwright, hg]
    all_goals try split_ifs
    all_goals intro c u hmem
    all_goals rcases hge with hge | hge
    all_goals subst hge
    all_goals try simp only [List.append_eq, List.mem_append, List.mem_cons,
      List.mem_singleton, List.not_mem_nil, or_false, false_or] at hmem
    all_goals try casesm* _ ∨ _
    all_goals
      first
        | exact absurd (by assumption) (timeoutEv_no_goto _ _ _ _)
        | simp_all
  · cases hf : _find_chromium_binary env
    all_goals simp only [take_screenshot_fallback, hf]
    all_goals try split_ifs
    all_goals intro cmd hmem
    all_goals simp_all [chromiumCommand]

/-- Environment for the C6 counterexample: Playwright unavailable, a
Chromium binary on PATH, the target is an existing local file. -/
def envC6 : Env :=
  { envOk with
      pwImport := false,
      which := fun c => if c = "chromium-headless-shell"
        then some "/usr/bin/chromium" else none,
      isFile := fun p => decide (p = "/home/pi/page.html") }

/-- C6 counterexample: with an existing local file as target, the
subprocess tier invokes the browser executable with the raw path as its
second argument — not a `file://` reference — refuting the claim that
the subprocess backend resolves local paths to local-file references. -/
theorem C6_counterexample :
    envC6.isFile "/home/pi/page.html" = true ∧
    (take_screenshot envC6 "/home/pi/page.html" 800 480 none st0).2.2 =
      [Ev.subTier, Ev.runSub (chromiumCommand "/usr/bin/chromium"
        "/home/pi/page.html" "tmp0" 800 480 none)] ∧
    (chromiumCommand "/usr/bin/chromium" "/home/pi/page.html" "tmp0"
      800 480 none)[1]? = some "/home/pi/page.html" ∧
    "/home/pi/page.html" ≠
      "file://" ++ envC6.abspath "/home/pi/page.html" := by
  refine ⟨rfl, rfl, rfl, by decide⟩

/-- Witness for C6 (amended): the embedded backend navigates the healthy
run to the raw URL (a non-file target passes through unchanged). -/
theorem C6_target_resolution_amended_witness :
    "http://x" = (if envOk.isFile "http://x" = true
      then "file://" ++ envOk.abspath "http://x" else "http://x") :=
  (C6_target_resolution_amended envOk "http://x" 800 480 none st0).1 0
    "http://x" (by decide)

/-- C7: whenever the embedded HTML backend returns a non-absent image,
the run wrote the HTML to a freshly named temp file and navigated — via
a `file://` reference to that file, and to nothing else (in particular
never to an inline/blank document) — a freshly opened browsing context
whose viewport is exactly the requested width × height at device-scale
factor 1; after the capture the context was closed while the shared
browser was not, and the image is the decode of that capture. -/
theorem C7_embedded_html_contract (env : Env) (html : String) (w h : Nat)
    (tM : Option Nat) (s : St) :
    ∀ i, (_take_screenshot_html_playwright env html w h tM s).1 = some i →
      i = Img.emb s.ctxCtr ∧
      Ev.newCtx s.ctxCtr w h 1 ∈
        (_take_screenshot_html_playwright env html w h tM s).2.2 ∧
      Ev.goto s.ctxCtr ("file://" ++ env.abspath (env.tmpName s.tmpCtr)) ∈
        (_take_screenshot_html_playwright env html w h tM s).2.2 ∧
      (∀ c u, Ev.goto c u ∈
          (_take_screenshot_html_playwright env html w h tM s).2.2 →
        c = s.ctxCtr ∧ u = "file://" ++ env.abspath (env.tmpName s.tmpCtr)) ∧
      Ev.shot s.ctxCtr ∈
        (_take_screenshot_html_playwright env html w h tM s).2.2 ∧
      Ev.closeCtx s.ctxCtr ∈
        (_take_screenshot_html_playwright env html w h tM s).2.2 ∧
      Ev.closeBrowser ∉
        (_take_screenshot_html_playwright env html w h tM s).2.2 ∧
      (_take_screenshot_html_playwright env html w h tM s).2.1.ctxCtr =
        s.ctxCtr + 1 := by
  obtain ⟨hge, hav, htmp, hctx, hfs⟩ := get_browser_spec env s
  rcases hg : _get_playwright_browser env s with ⟨b, s1, e1⟩
  rw [hg] at hge hav htmp hctx hfs
  simp only at hge hav htmp hctx hfs
  cases b
  all_goals simp only [_take_screenshot_html_playwright, hg]
  all_goals try split_ifs
  all_goals intro i hi
  all_goals try simp only [removeIfExists] at hi ⊢
  all_goals try split_ifs
  all_goals simp_all
  all_goals rcases hge with hge | hge
  all_goals subst hge
  all_goals repeat' apply And.intro
  all_goals
    first
      | (simp
         done)
      | (intro hmem
         obtain ⟨t, ht⟩ := timeoutEv_mem _ _ _ hmem
         exact Ev.noConfusion ht)
      | simp_all
      | skip
  all_goals intro c u hmem
  all_goals rcases hmem with hmem | hmem
  all_goals first
    | exact absurd hmem (timeoutEv_no_goto _ _ _ _)
    | exact hmem

/-- Witness for C7: the healthy embedded HTML run succeeds with the
image of context 0 and never closes the shared browser. -/
theorem C7_embedded_html_contract_witness :
    (_take_screenshot_html_playwright envOk "<p>hi</p>" 800 480 none
      st0).1 = some (Img.emb 0) ∧
    Ev.closeBrowser ∉ (_take_screenshot_html_playwright envOk "<p>hi</p>"
      800 480 none st0).2.2 :=
  ⟨rfl, (C7_embedded_html_contract envOk "<p>hi</p>" 800 480 none st0
    (Img.emb 0) rfl).2.2.2.2.2.2.1⟩
